import Mathlib

/-!
# LearnCheck — verification of the adaptive question-generation slice

Shallow embedding of the reproducible-logic slice of the LearnCheck
repository: the adaptive difficulty adapter, the generation cache-key
builder, the request validation, the response normalization and the
fallback policy of `src/backend/src/routes/llm.js`, the Redis cache
wrapper of `src/backend/src/services/cache.js`, the frontend retry
logic of `src/frontend/src/components/Timer.tsx`, and the frontend API
client's request serialization.

JavaScript numbers that are validated as integers are modelled as `Int`
(or `Nat` where the code guarantees non-negativity); the frontend's
floating-point score percentage is modelled as `Rat`.  JavaScript
strings are Lean `String`s; `undefined` fields are `Option`s.
-/

namespace LearnCheck

/-- The three difficulty levels, ordered `easy < medium < hard`
(spec §4.1, glossary). -/
inductive Difficulty where
  | easy
  | medium
  | hard
deriving DecidableEq, Repr

/-- Numeric rank of a difficulty level in the order `easy < medium < hard`. -/
def Difficulty.level : Difficulty → Nat
  | .easy => 0
  | .medium => 1
  | .hard => 2

/-- One step up in the difficulty order (spec §4.1: `easy→medium`,
`medium→hard`; `hard` has nothing above it). -/
def Difficulty.stepUp : Difficulty → Difficulty
  | .easy => .medium
  | .medium => .hard
  | .hard => .hard

/-- One step down in the difficulty order (spec §4.1: `hard→medium`,
`medium→easy`; `easy` has nothing below it). -/
def Difficulty.stepDown : Difficulty → Difficulty
  | .easy => .easy
  | .medium => .easy
  | .hard => .medium

/-- Backend adaptive-difficulty computation, `src/backend/src/routes/llm.js`
lines 61-73.  The guard is `previousScore !== undefined && attemptNumber > 0`;
inside it, score ≥ 80 steps up unless already `hard`, else score ≤ 40 steps
down unless already `easy`, else the difficulty is kept. -/
def adjustedDifficulty (difficulty : Difficulty) (previousScore : Option Int)
    (attemptNumber : Nat) : Difficulty :=
  match previousScore, attemptNumber with
  | some scorePercentage, _ + 1 =>
      if 80 ≤ scorePercentage ∧ difficulty ≠ Difficulty.hard then
        (if difficulty = Difficulty.easy then Difficulty.medium else Difficulty.hard)
      else if scorePercentage ≤ 40 ∧ difficulty ≠ Difficulty.easy then
        (if difficulty = Difficulty.hard then Difficulty.medium else Difficulty.easy)
      else difficulty
  | _, _ => difficulty

/-- Frontend next-difficulty computation in `handleTryAgain`,
`src/frontend/src/components/Timer.tsx` lines 401-408.  The score
percentage there is `(score / questions.length) * 100`, a JS float,
modelled as a rational. -/
def handleTryAgainNextDifficulty (currentDifficulty : Difficulty)
    (scorePercentage : ℚ) : Difficulty :=
  if 80 ≤ scorePercentage ∧ currentDifficulty ≠ Difficulty.hard then
    (if currentDifficulty = Difficulty.easy then Difficulty.medium else Difficulty.hard)
  else if scorePercentage ≤ 40 ∧ currentDifficulty ≠ Difficulty.easy then
    (if currentDifficulty = Difficulty.hard then Difficulty.medium else Difficulty.easy)
  else currentDifficulty

/-- Digit accumulator for decimal rendering; the first argument is fuel
bounding the number of divisions, so the recursion is structural and the
kernel can evaluate it. -/
def decimalCharsAux : Nat → Nat → List Char
  | 0, _ => []
  | fuel + 1, n =>
      if n = 0 then []
      else decimalCharsAux fuel (n / 10) ++ [Nat.digitChar (n % 10)]

/-- Decimal digit list (most significant first) of a natural number, as
JavaScript template interpolation `${n}` renders a non-negative integer. -/
def decimalChars (n : Nat) : List Char :=
  if n = 0 then ['0'] else decimalCharsAux n n

/-- Decimal string of a natural number (JS `${n}` for integers ≥ 0). -/
def natStr (n : Nat) : String :=
  String.mk (decimalChars n)

/-- UTF-8 encoding of one character, as `Buffer.from(content)` encodes a JS
string (byte values as `Nat`; arithmetic `/`, `%`, `+` stand for the shifts
and masks of the standard encoder). -/
def utf8EncodeCharBytes (c : Char) : List Nat :=
  let v := c.toNat
  if v < 0x80 then [v]
  else if v < 0x800 then [0xC0 + v / 64, 0x80 + v % 64]
  else if v < 0x10000 then [0xE0 + v / 4096, 0x80 + v / 64 % 64, 0x80 + v % 64]
  else [0xF0 + v / 262144, 0x80 + v / 4096 % 64, 0x80 + v / 64 % 64, 0x80 + v % 64]

/-- UTF-8 byte sequence of a string (`Buffer.from(content)`). -/
def utf8Bytes (s : String) : List Nat :=
  s.data.flatMap utf8EncodeCharBytes

/-- The standard base64 alphabet. -/
def base64Table : List Char :=
  "ABCDEFGHIJKLMNOPQRSTUVWXYZabcdefghijklmnopqrstuvwxyz0123456789+/".data

/-- Character for a 6-bit value in the base64 alphabet. -/
def base64Digit (n : Nat) : Char :=
  base64Table.getD n '='

/-- Base64 encoding of a byte list, three bytes to four characters with
`=` padding, as `buffer.toString('base64')` produces. -/
def base64Chars : List Nat → List Char
  | [] => []
  | [b1] =>
      [base64Digit (b1 / 4), base64Digit (b1 % 4 * 16), '=', '=']
  | [b1, b2] =>
      [base64Digit (b1 / 4), base64Digit (b1 % 4 * 16 + b2 / 16),
        base64Digit (b2 % 16 * 4), '=']
  | b1 :: b2 :: b3 :: rest =>
      base64Digit (b1 / 4) :: base64Digit (b1 % 4 * 16 + b2 / 16) ::
        base64Digit (b2 % 16 * 4 + b3 / 64) :: base64Digit (b3 % 64) ::
        base64Chars rest

/-- Content fingerprint of `src/backend/src/routes/llm.js` line 82:
`Buffer.from(content).toString('base64').slice(0, 32)`. -/
def contentHash (content : String) : String :=
  String.mk ((base64Chars (utf8Bytes content)).take 32)

/-- The `${userId || 'anonymous'}` segment of the cache key: a missing or
empty user id falls back to the `anonymous` sentinel. -/
def userSegment : Option String → String
  | some u => if u = "" then "anonymous" else u
  | none => "anonymous"

/-- String rendering of a difficulty, as the JS string values. -/
def Difficulty.str : Difficulty → String
  | .easy => "easy"
  | .medium => "medium"
  | .hard => "hard"

/-- Cache key of `src/backend/src/routes/llm.js` line 83:
`questions:{contentHash}:{difficulty}:{count}:{attempt}:{userId||'anonymous'}`. -/
def cacheKey (content : String) (difficulty : Difficulty) (questionCount : Nat)
    (attemptNumber : Nat) (userId : Option String) : String :=
  "questions:" ++ contentHash content ++ ":" ++ difficulty.str ++ ":" ++
    natStr questionCount ++ ":" ++ natStr attemptNumber ++ ":" ++ userSegment userId

/-- A multiple-choice option: identifier (`"A"`-`"D"` when synthesized)
paired with text (data model of spec §3, `llm.js` normalization). -/
structure QOption where
  id : String
  text : String
deriving DecidableEq, Repr

/-- A normalized question as produced by `parseGeminiResponse`. -/
structure Question where
  id : Nat
  question : String
  options : List QOption
  correctAnswer : String
  explanation : String
deriving DecidableEq, Repr

/-- A raw option value inside untrusted generator output: a JSON object
with optional `id`/`text` fields, a bare string, or any other value
(number, boolean, ...), as the normalizer's `typeof` tests distinguish. -/
inductive RawOption where
  | obj (oid : Option String) (otext : Option String)
  | str (s : String)
  | other
deriving DecidableEq, Repr

/-- A raw question-like object inside untrusted generator output; absent
fields are `none`, a missing or non-array `options` field is `none`. -/
structure RawQuestion where
  question : Option String := none
  options : Option (List RawOption) := none
  correctAnswer : Option String := none
  explanation : Option String := none
deriving DecidableEq, Repr

/-- JavaScript `x || d` for an optional string: `undefined` and the empty
string (both falsy) fall back to the default. -/
def jsOrStr (x : Option String) (d : String) : String :=
  match x with
  | some s => if s = "" then d else s
  | none => d

/-- JavaScript `x || d` for an optional integer: `undefined` and `0`
(both falsy) fall back to the default. -/
def jsOrInt (x : Option Int) (d : Int) : Int :=
  match x with
  | some n => if n = 0 then d else n
  | none => d

/-- Single-character string `String.fromCharCode(65 + i)`. -/
def letterStr (i : Nat) : String :=
  String.mk [Char.ofNat (65 + i)]

/-- Normalization of one option at position `optIndex`
(`llm.js` lines 278-283): an object keeps truthy `id`/`text`, a bare
string becomes the text, everything else gets placeholders; a missing or
falsy id is synthesized from the position. -/
def normalizeOption (optIndex : Nat) : RawOption → QOption
  | .obj oid otext =>
      { id := match oid with
          | some s => if s = "" then letterStr optIndex else s
          | none => letterStr optIndex
        text := match otext with
          | some t => if t = "" then "Opsi " ++ natStr (optIndex + 1) else t
          | none => "Opsi " ++ natStr (optIndex + 1) }
  | .str s =>
      { id := letterStr optIndex, text := s }
  | .other =>
      { id := letterStr optIndex, text := "Opsi " ++ natStr (optIndex + 1) }

/-- The `while (normalizedOptions.length < 4)` padding loop
(`llm.js` lines 286-292), rendered as appending one placeholder per
missing position: pushed entries get the next letter id and text
`Opsi {letter}`. -/
def padOptions (l : List QOption) : List QOption :=
  l ++ ((List.range 4).drop l.length).map
    (fun i => { id := letterStr i, text := "Opsi " ++ letterStr i })

/-- Normalization of one raw question at position `index`
(`llm.js` lines 276-301): options are sliced to four, normalized and
padded; question text, correct answer and explanation fall back to
placeholders through JS `||`; ids are renumbered by position. -/
def normalizeQuestion (index : Nat) (q : RawQuestion) : Question :=
  { id := index + 1
    question := jsOrStr q.question ("Soal " ++ natStr (index + 1))
    options := padOptions (((q.options.getD []).take 4).mapIdx normalizeOption)
    correctAnswer := jsOrStr q.correctAnswer "A"
    explanation := jsOrStr q.explanation "Penjelasan belum tersedia." }

/-- The validate-and-normalize map over a parsed generator array
(`llm.js` line 276): take at most `expectedCount` questions and
normalize each with its position. -/
def normalizeQuestions (qs : List RawQuestion) (expectedCount : Nat) :
    List Question :=
  (qs.take expectedCount).mapIdx normalizeQuestion

/-- The three hard-coded fallback questions of `getFallbackQuestions`
(`llm.js` lines 315-352). -/
def fallbackList : List Question :=
  [ { id := 1
      question := "Apa keuntungan utama menggunakan React Hooks dibandingkan dengan Class Components?"
      options := [⟨"A", "Lebih cepat dalam rendering"⟩,
        ⟨"B", "Syntax lebih sederhana dan mudah dipahami"⟩,
        ⟨"C", "Mendukung lebih banyak lifecycle methods"⟩,
        ⟨"D", "Kompatibilitas yang lebih baik dengan browser lama"⟩]
      correctAnswer := "B"
      explanation := "React Hooks memberikan syntax yang lebih clean dan mudah dipahami untuk state management dan side effects, membuat code lebih readable dan maintainable." },
    { id := 2
      question := "Kapan sebaiknya menggunakan useEffect() dalam React?"
      options := [⟨"A", "Hanya untuk API calls"⟩,
        ⟨"B", "Setiap kali ada state yang berubah"⟩,
        ⟨"C", "Untuk side effects seperti data fetching, subscriptions, atau DOM manipulation"⟩,
        ⟨"D", "Hanya di komponen class"⟩]
      correctAnswer := "C"
      explanation := "useEffect adalah hook untuk menangani side effects dalam functional components, termasuk data fetching, event listeners, dan cleanup operations." },
    { id := 3
      question := "Apa perbedaan antara props dan state dalam React?"
      options := [⟨"A", "Props bersifat mutable, state immutable"⟩,
        ⟨"B", "Props untuk data dari parent, state untuk data internal component"⟩,
        ⟨"C", "Props hanya untuk class components"⟩,
        ⟨"D", "Tidak ada perbedaan, keduanya sama"⟩]
      correctAnswer := "B"
      explanation := "Props adalah data yang diberikan dari parent component dan bersifat read-only, sedangkan state adalah data internal yang dapat diubah oleh component itu sendiri." } ]

/-- `getFallbackQuestions(count)` (`llm.js` line 354): slice of the fixed
three-question list. -/
def getFallbackQuestions (count : Nat) : List Question :=
  fallbackList.take count

/-- An incoming request body for `POST /api/llm/generate-questions`;
absent JSON fields are `none`.  Fields that Joi would reject for having
the wrong JSON type are outside the model: numbers arrive as `Int`,
strings as `String`. -/
structure RawBody where
  content : Option String := none
  questionCount : Option Int := none
  difficulty : Option String := none
  language : Option String := none
  questionType : Option String := none
  attemptNumber : Option Int := none
  previousScore : Option Int := none
  userId : Option String := none
deriving DecidableEq, Repr

/-- Difficulty strings accepted by `Joi.string().valid('easy','medium','hard')`. -/
def parseDifficulty : String → Option Difficulty
  | "easy" => some Difficulty.easy
  | "medium" => some Difficulty.medium
  | "hard" => some Difficulty.hard
  | _ => none

/-- A request after `generateQuestionsSchema.validate` succeeded: defaults
applied, numbers known to be in range. -/
structure ValidatedRequest where
  content : String
  questionCount : Nat
  difficulty : Difficulty
  language : String
  questionType : String
  attemptNumber : Nat
  previousScore : Option Int
  userId : Option String
deriving DecidableEq, Repr

/-- The fields of `generateQuestionsSchema` (`llm.js` lines 21-30) that a
given body violates, in schema declaration order: `content` required with
length 100..50000, `questionCount` 1..10, `difficulty` in
easy/medium/hard, `language` in id/en, `questionType` in the three
allowed values, `attemptNumber` ≥ 0, `previousScore` 0..100; `userId` is
an unconstrained optional string. -/
def fieldViolations (b : RawBody) : List String :=
  (match b.content with
    | none => ["content"]
    | some c => if 100 ≤ c.length ∧ c.length ≤ 50000 then [] else ["content"]) ++
  (match b.questionCount with
    | none => []
    | some n => if 1 ≤ n ∧ n ≤ 10 then [] else ["questionCount"]) ++
  (match b.difficulty with
    | none => []
    | some d => if (parseDifficulty d).isSome then [] else ["difficulty"]) ++
  (match b.language with
    | none => []
    | some l => if l = "id" ∨ l = "en" then [] else ["language"]) ++
  (match b.questionType with
    | none => []
    | some t =>
        if t = "multiple-choice" ∨ t = "true-false" ∨ t = "short-answer"
        then [] else ["questionType"]) ++
  (match b.attemptNumber with
    | none => []
    | some a => if 0 ≤ a then [] else ["attemptNumber"]) ++
  (match b.previousScore with
    | none => []
    | some s => if 0 ≤ s ∧ s ≤ 100 then [] else ["previousScore"])

/-- `generateQuestionsSchema.validate(req.body)` (`llm.js` line 42).  Joi
is called with its default options, so `abortEarly` is `true`: validation
stops at the first violated field in schema order and `error.details`
carries that single violation.  On success the declared defaults are
applied. -/
def validate (b : RawBody) : Except (List String) ValidatedRequest :=
  match fieldViolations b with
  | v :: _ => Except.error [v]
  | [] =>
      Except.ok
        { content := b.content.getD ""
          questionCount := (b.questionCount.getD 3).toNat
          difficulty := (parseDifficulty (b.difficulty.getD "medium")).getD
            Difficulty.medium
          language := b.language.getD "id"
          questionType := b.questionType.getD "multiple-choice"
          attemptNumber := (b.attemptNumber.getD 0).toNat
          previousScore := b.previousScore
          userId := b.userId }

/-- The JSON response of the route, with the HTTP status and the body
fields the claims refer to; `none` marks a field absent from the body. -/
structure HttpResponse where
  status : Nat
  success : Option Bool := none
  errorDetails : List String := []
  questions : List Question := []
  cached : Option Bool := none
  fallback : Option Bool := none
  difficulty : Option Difficulty := none
  attemptNumber : Option Nat := none
deriving DecidableEq, Repr

/-- The `POST /generate-questions` handler (`llm.js` lines 39-177).  The
cache store is passed as a lookup function; the generator call and the
JSON-parsing stage of `parseGeminiResponse` are the opaque boundary,
passed as `gen`: `.error ()` is a thrown network error, `.ok none` is
output on which parsing failed (malformed or empty), `.ok (some raws)`
is a parsed question-like array, which the handler normalizes.  Any of
the three failure shapes reaches the catch block, which answers HTTP 200
with `success:false`, `fallback:true` and the sliced demo questions. -/
def generateQuestionsRoute (body : RawBody)
    (cacheLookup : String → Option (List Question))
    (gen : Except Unit (Option (List RawQuestion))) : HttpResponse :=
  match validate body with
  | Except.error details => { status := 400, errorDetails := details }
  | Except.ok v =>
      let adjusted := adjustedDifficulty v.difficulty v.previousScore
        v.attemptNumber
      let key := cacheKey v.content adjusted v.questionCount v.attemptNumber
        v.userId
      match cacheLookup key with
      | some cachedQs =>
          { status := 200, success := some true, questions := cachedQs
            cached := some true, difficulty := some adjusted
            attemptNumber := some v.attemptNumber }
      | none =>
          let fallbackResp : HttpResponse :=
            { status := 200, success := some false, fallback := some true
              questions := getFallbackQuestions (jsOrInt body.questionCount 3).toNat }
          match gen with
          | Except.error _ => fallbackResp
          | Except.ok none => fallbackResp
          | Except.ok (some raws) =>
              let questions := normalizeQuestions raws v.questionCount
              if questions.isEmpty then fallbackResp
              else
                { status := 200, success := some true, questions := questions
                  cached := some false, difficulty := some adjusted
                  attemptNumber := some v.attemptNumber }

/-- The frontend `GenerateQuestionsRequest` shape
(`src/unnamed/part_000` lines 39-48).  The score percentage computed by
the frontend is a JS float, hence `Rat`. -/
structure GenerateQuestionsRequest where
  content : String
  difficulty : Option String := none
  questionCount : Option Int := none
  language : Option String := none
  tutorialTitle : Option String := none
  attemptNumber : Option Int := none
  previousScore : Option Rat := none
  userId : Option String := none
deriving DecidableEq, Repr

/-- The HTTP body built by `apiService.generateQuestions`
(`src/unnamed/part_000` lines 192-217): only `content`, `difficulty`,
`questionCount` and `language` are serialized, the last three behind
JS `||` defaults; every other field of the caller's request is dropped. -/
def apiGenerateQuestionsBody (request : GenerateQuestionsRequest) : RawBody :=
  { content := some request.content
    difficulty := some (jsOrStr request.difficulty "medium")
    questionCount := some (jsOrInt request.questionCount 3)
    language := some (jsOrStr request.language "id")
    questionType := none
    attemptNumber := none
    previousScore := none
    userId := none }

/-- `cache.get` (`src/backend/src/services/cache.js` lines 63-79): inside
one try/catch, return `null` when the client is unavailable, pass the
stored string through `JSON.parse` (a falsy value short-circuits to
`null`), and convert any thrown error to `null`.  The Redis call and the
parser are opaque boundaries passed as `Except` values. -/
def cacheGet {α : Type} (available : Bool)
    (clientGet : Except Unit (Option String))
    (parse : String → Except Unit α) : Option α :=
  if available then
    match clientGet with
    | Except.error _ => none
    | Except.ok none => none
    | Except.ok (some value) =>
        if value = "" then none
        else
          match parse value with
          | Except.error _ => none
          | Except.ok x => some x
  else none

/-- `cache.set` (`cache.js` lines 82-96): `false` when unavailable or when
`setEx` throws, `true` otherwise. -/
def cacheSet (available : Bool) (clientSetEx : Except Unit Unit) : Bool :=
  if available then
    match clientSetEx with
    | Except.error _ => false
    | Except.ok _ => true
  else false

/-- `cache.del` (`cache.js` lines 99-112): `false` when unavailable or when
`del` throws, `true` otherwise. -/
def cacheDel (available : Bool) (clientDel : Except Unit Unit) : Bool :=
  if available then
    match clientDel with
    | Except.error _ => false
    | Except.ok _ => true
  else false

lemma digitChar_injOn {d1 d2 : Nat} (h1 : d1 < 10) (h2 : d2 < 10)
    (h : Nat.digitChar d1 = Nat.digitChar d2) : d1 = d2 := by
  interval_cases d1 <;> interval_cases d2 <;> first
    | rfl
    | exact absurd h (by decide)

lemma map_digitChar_inj : ∀ (l1 l2 : List Nat), (∀ d ∈ l1, d < 10) →
    (∀ d ∈ l2, d < 10) → l1.map Nat.digitChar = l2.map Nat.digitChar → l1 = l2
  | [], [], _, _, _ => rfl
  | [], _ :: _, _, _, h => by simp at h
  | _ :: _, [], _, _, h => by simp at h
  | a :: t1, b :: t2, h1, h2, h => by
      simp only [List.map_cons, List.cons.injEq] at h
      have hab : a = b :=
        digitChar_injOn (h1 a (by simp)) (h2 b (by simp)) h.1
      have ht : t1 = t2 :=
        map_digitChar_inj t1 t2 (fun d hd => h1 d (by simp [hd]))
          (fun d hd => h2 d (by simp [hd])) h.2
      rw [hab, ht]

lemma decimalCharsAux_zero : ∀ fuel : Nat, decimalCharsAux fuel 0 = [] := by
  intro fuel
  cases fuel <;> simp [decimalCharsAux]

lemma decimalCharsAux_eq_digits : ∀ (fuel n : Nat), n ≠ 0 → n ≤ fuel →
    decimalCharsAux fuel n = (Nat.digits 10 n).reverse.map Nat.digitChar := by
  intro fuel
  induction fuel with
  | zero => intro n hn hle; omega
  | succ fuel ih =>
      intro n hn hle
      rcases eq_or_ne (n / 10) 0 with h10 | h10
      · have hlt : n < 10 := by omega
        rw [decimalCharsAux, if_neg hn, h10, decimalCharsAux_zero,
          Nat.digits_def' (by omega : 1 < 10) (by omega : 0 < n), h10,
          Nat.digits_zero]
        simp [Nat.mod_eq_of_lt hlt]
      · have hdiv_le : n / 10 ≤ fuel := by
          have : n / 10 < n := Nat.div_lt_self (by omega) (by omega)
          omega
        rw [decimalCharsAux, if_neg hn, ih (n / 10) h10 hdiv_le,
          Nat.digits_def' (by omega : 1 < 10) (by omega : 0 < n)]
        simp

lemma decimalChars_eq_digits {n : Nat} (hn : n ≠ 0) :
    decimalChars n = (Nat.digits 10 n).reverse.map Nat.digitChar := by
  rw [decimalChars, if_neg hn]
  exact decimalCharsAux_eq_digits n n hn le_rfl

lemma digits_map_ne_zero_char {n : Nat} (hn : n ≠ 0) :
    (Nat.digits 10 n).reverse.map Nat.digitChar ≠ ['0'] := by
  intro hcontra
  have hlen : (Nat.digits 10 n).length = 1 := by
    simpa using congrArg List.length hcontra
  obtain ⟨d, hd⟩ := List.length_eq_one.mp hlen
  rw [hd] at hcontra
  simp only [List.reverse_cons, List.reverse_nil, List.nil_append,
    List.map_cons, List.map_nil, List.cons.injEq, and_true] at hcontra
  have hd10 : d < 10 :=
    Nat.digits_lt_base (by omega) (by rw [hd]; simp)
  have hd0 : d = 0 := digitChar_injOn hd10 (by omega) (by simpa using hcontra)
  have h0 := Nat.ofDigits_digits 10 n
  rw [hd, hd0] at h0
  simp [Nat.ofDigits] at h0
  exact hn h0.symm

lemma decimalChars_inj : ∀ m n : Nat, decimalChars m = decimalChars n → m = n := by
  intro m n h
  rcases eq_or_ne m 0 with rfl | hm
  · rcases eq_or_ne n 0 with rfl | hn
    · rfl
    · rw [show decimalChars 0 = ['0'] from rfl, decimalChars_eq_digits hn] at h
      exact absurd h.symm (digits_map_ne_zero_char hn)
  · rcases eq_or_ne n 0 with rfl | hn
    · rw [show decimalChars 0 = ['0'] from rfl, decimalChars_eq_digits hm] at h
      exact absurd h (digits_map_ne_zero_char hm)
    · rw [decimalChars_eq_digits hm, decimalChars_eq_digits hn] at h
      have hrev : (Nat.digits 10 m).reverse = (Nat.digits 10 n).reverse :=
        map_digitChar_inj _ _
          (fun d hd => Nat.digits_lt_base (by omega) (List.mem_reverse.mp hd))
          (fun d hd => Nat.digits_lt_base (by omega) (List.mem_reverse.mp hd)) h
      have hdig : Nat.digits 10 m = Nat.digits 10 n :=
        List.reverse_injective hrev
      calc m = Nat.ofDigits 10 (Nat.digits 10 m) := (Nat.ofDigits_digits 10 m).symm
        _ = Nat.ofDigits 10 (Nat.digits 10 n) := by rw [hdig]
        _ = n := Nat.ofDigits_digits 10 n

lemma natStr_inj {m n : Nat} (h : natStr m = natStr n) : m = n := by
  apply decimalChars_inj
  have := congrArg String.data h
  simpa [natStr] using this

/-- C7: with content, difficulty, question count and user id held fixed,
two different attempt numbers always produce different cache keys, so a
retry cannot be served the cached result stored under the previous
attempt's key. -/
theorem cacheKey_attempt_busts (content : String) (d : Difficulty)
    (n : Nat) (u : Option String) (a1 a2 : Nat) (h : a1 ≠ a2) :
    cacheKey content d n a1 u ≠ cacheKey content d n a2 u := by
  intro heq
  apply h
  have hd := congrArg String.data heq
  simp only [cacheKey, String.data_append] at hd
  have h1 := List.append_cancel_right hd
  have h2 := List.append_cancel_right h1
  have h3 := List.append_cancel_left h2
  exact natStr_inj (by
    apply congrArg String.mk
    simpa [natStr] using h3)

/-- Witness for `cacheKey_attempt_busts`: attempts 0 and 1 give distinct
keys for a fixed request. -/
theorem cacheKey_attempt_busts_witness :
    cacheKey "reactHooksTutorialContent" Difficulty.medium 3 0 none ≠
      cacheKey "reactHooksTutorialContent" Difficulty.medium 3 1 none :=
  cacheKey_attempt_busts "reactHooksTutorialContent" Difficulty.medium 3 none 0 1
    (by omega)

lemma eq_of_take_eq_of_length_lt {α : Type} {l1 l2 : List α} {m : Nat}
    (h : l1.take m = l2.take m) (hl : l1.length < m) : l1 = l2 := by
  have hmin : min m l1.length = min m l2.length := by
    simpa [List.length_take] using congrArg List.length h
  have hl2 : l2.length < m := by omega
  rw [List.take_of_length_le (by omega), List.take_of_length_le (by omega)] at h
  exact h

lemma cons3_of_three_le_length {α : Type} {l : List α} (h : 3 ≤ l.length) :
    ∃ a b c r, l = a :: b :: c :: r := by
  rcases l with _ | ⟨a, _ | ⟨b, _ | ⟨c, r⟩⟩⟩
  · simp only [List.length_nil] at h; omega
  · simp only [List.length_cons, List.length_nil] at h; omega
  · simp only [List.length_cons, List.length_nil] at h; omega
  · exact ⟨a, b, c, r, rfl⟩

lemma base64Chars_take : ∀ (k : Nat) (bs1 bs2 : List Nat),
    bs1.take (3 * k) = bs2.take (3 * k) →
    (base64Chars bs1).take (4 * k) = (base64Chars bs2).take (4 * k) := by
  intro k
  induction k with
  | zero => intro bs1 bs2 _; simp
  | succ k ih =>
      intro bs1 bs2 h
      by_cases h1 : bs1.length < 3
      · rw [eq_of_take_eq_of_length_lt h (by omega)]
      · by_cases h2 : bs2.length < 3
        · rw [eq_of_take_eq_of_length_lt h.symm (by omega)]
        · push_neg at h1 h2
          obtain ⟨x1, x2, x3, r1, rfl⟩ := cons3_of_three_le_length h1
          obtain ⟨y1, y2, y3, r2, rfl⟩ := cons3_of_three_le_length h2
          have e3 : 3 * (k + 1) = 3 * k + 1 + 1 + 1 := by ring
          rw [e3, List.take_succ_cons, List.take_succ_cons,
            List.take_succ_cons, List.take_succ_cons, List.take_succ_cons,
            List.take_succ_cons] at h
          simp only [List.cons.injEq] at h
          obtain ⟨rfl, rfl, rfl, htail⟩ := h
          have e4 : 4 * (k + 1) = 4 * k + 1 + 1 + 1 + 1 := by ring
          simp only [base64Chars, e4, List.take_succ_cons, List.cons.injEq,
            true_and]
          exact ih r1 r2 htail

/-- C3 (amended): the cache-key builder is deterministic, and the content
enters the key only through its first 24 UTF-8 bytes (the first 32 base64
characters): any two contents agreeing on those bytes yield the identical
key when the other four inputs are fixed. -/
theorem cacheKey_content_fingerprint (c1 c2 : String) (d : Difficulty)
    (n a : Nat) (u : Option String)
    (h : (utf8Bytes c1).take 24 = (utf8Bytes c2).take 24) :
    cacheKey c1 d n a u = cacheKey c2 d n a u := by
  have h32 : (base64Chars (utf8Bytes c1)).take 32 =
      (base64Chars (utf8Bytes c2)).take 32 := by
    have h24 : (utf8Bytes c1).take (3 * 8) = (utf8Bytes c2).take (3 * 8) := by
      norm_num
      exact h
    have := base64Chars_take 8 (utf8Bytes c1) (utf8Bytes c2) h24
    norm_num at this
    exact this
  unfold cacheKey contentHash
  rw [h32]

/-- Witness for `cacheKey_content_fingerprint`: two distinct 100-character
contents sharing their first 24 bytes receive the identical cache key. -/
theorem cacheKey_content_fingerprint_witness :
    cacheKey (String.mk (List.replicate 100 'a')) Difficulty.medium 3 0 none =
      cacheKey (String.mk (List.replicate 30 'a' ++ List.replicate 70 'b'))
        Difficulty.medium 3 0 none :=
  cacheKey_content_fingerprint _ _ Difficulty.medium 3 0 none (by decide)

/-- Counterexample to C3 as stated: two distinct (validation-length)
content strings, all other fields held fixed, produce the identical key,
because only the first 24 bytes of the content reach the fingerprint. -/
theorem cacheKey_distinct_content_collision :
    String.mk (List.replicate 100 'a') ≠
        String.mk (List.replicate 30 'a' ++ List.replicate 70 'b') ∧
      cacheKey (String.mk (List.replicate 100 'a')) Difficulty.medium 3 0 none =
        cacheKey (String.mk (List.replicate 30 'a' ++ List.replicate 70 'b'))
          Difficulty.medium 3 0 none := by
  constructor
  · decide
  · decide

lemma adjustedDifficulty_zero (d : Difficulty) (p : Option Int) :
    adjustedDifficulty d p 0 = d := by
  cases p <;> rfl

lemma adjustedDifficulty_none (d : Difficulty) (a : Nat) :
    adjustedDifficulty d none a = d := by
  cases a <;> rfl

lemma adjustedDifficulty_pos (d : Difficulty) (s : Int) (a : Nat) (ha : 0 < a) :
    adjustedDifficulty d (some s) a =
      if 80 ≤ s ∧ d ≠ Difficulty.hard then d.stepUp
      else if s ≤ 40 ∧ d ≠ Difficulty.easy then d.stepDown
      else d := by
  cases a with
  | zero => omega
  | succ n =>
      cases d <;> simp [adjustedDifficulty, Difficulty.stepUp, Difficulty.stepDown]

/-- C2: for every difficulty, every previous score in 0..100 or absent, and
every attempt number, the difficulty-adaptation step returns the input
unchanged when the attempt number is 0 or the score is absent; one level up
when score ≥ 80 and not already `hard`; one level down when score ≤ 40 and
not already `easy`; the input unchanged in every other case; and the result
never differs from the input by more than one level. -/
theorem adjustedDifficulty_spec (d : Difficulty) (p : Option Int) (a : Nat)
    (_hp : ∀ s, p = some s → 0 ≤ s ∧ s ≤ 100) :
    ((a = 0 ∨ p = none) → adjustedDifficulty d p a = d) ∧
    (∀ s, p = some s → 0 < a → 80 ≤ s → d ≠ Difficulty.hard →
      adjustedDifficulty d p a = d.stepUp) ∧
    (∀ s, p = some s → 0 < a → s ≤ 40 → d ≠ Difficulty.easy →
      adjustedDifficulty d p a = d.stepDown) ∧
    (∀ s, p = some s → 0 < a → 40 < s → s < 80 → adjustedDifficulty d p a = d) ∧
    (∀ s, p = some s → 0 < a → 80 ≤ s → d = Difficulty.hard →
      adjustedDifficulty d p a = d) ∧
    (∀ s, p = some s → 0 < a → s ≤ 40 → d = Difficulty.easy →
      adjustedDifficulty d p a = d) ∧
    ((adjustedDifficulty d p a).level ≤ d.level + 1 ∧
      d.level ≤ (adjustedDifficulty d p a).level + 1) := by
  refine ⟨?_, ?_, ?_, ?_, ?_, ?_, ?_⟩
  · rintro (rfl | rfl)
    · exact adjustedDifficulty_zero d p
    · exact adjustedDifficulty_none d a
  · rintro s rfl ha hs hd
    rw [adjustedDifficulty_pos d s a ha, if_pos ⟨hs, hd⟩]
  · rintro s rfl ha hs hd
    rw [adjustedDifficulty_pos d s a ha, if_neg (by omega), if_pos ⟨hs, hd⟩]
  · rintro s rfl ha h40 h80
    rw [adjustedDifficulty_pos d s a ha, if_neg (by omega), if_neg (by omega)]
  · rintro s rfl ha hs rfl
    rw [adjustedDifficulty_pos _ s a ha]
    simp
    omega
  · rintro s rfl ha hs rfl
    rw [adjustedDifficulty_pos _ s a ha]
    simp
    omega
  · rcases p with _ | s
    · rw [adjustedDifficulty_none]; omega
    · rcases Nat.eq_zero_or_pos a with rfl | ha
      · rw [adjustedDifficulty_zero]; omega
      · rw [adjustedDifficulty_pos d s a ha]
        cases d <;> split_ifs <;>
          simp [Difficulty.stepUp, Difficulty.stepDown, Difficulty.level]

/-- Witness for `adjustedDifficulty_spec` at `(medium, some 85, 1)`:
the adapter steps up to `hard`. -/
theorem adjustedDifficulty_spec_witness :
    adjustedDifficulty Difficulty.medium (some 85) 1 = Difficulty.hard := by
  have h := adjustedDifficulty_spec Difficulty.medium (some 85) 1
    (by intro s hs; cases hs; omega)
  have h2 := h.2.1 85 rfl (by omega) (by omega) (by simp)
  simpa [Difficulty.stepUp] using h2

/-- C8: the frontend's next-difficulty computation in `handleTryAgain`
and the backend's adaptive-difficulty adjustment implement the same
function: on any difficulty and any (integer) score percentage, for any
positive attempt number, both produce the same next difficulty. -/
theorem frontend_backend_difficulty_agree (d : Difficulty) (s : Int) (a : Nat)
    (ha : 0 < a) :
    handleTryAgainNextDifficulty d (s : ℚ) = adjustedDifficulty d (some s) a := by
  rw [adjustedDifficulty_pos d s a ha]
  have h80 : ((80 : ℚ) ≤ (s : ℚ)) ↔ (80 ≤ s) := by exact_mod_cast Iff.rfl
  have h40 : (((s : ℚ)) ≤ 40) ↔ (s ≤ 40) := by exact_mod_cast Iff.rfl
  cases d <;>
    simp [handleTryAgainNextDifficulty, Difficulty.stepUp, Difficulty.stepDown,
      h80, h40]

/-- Witness for `frontend_backend_difficulty_agree` at `(easy, 90, 2)`. -/
theorem frontend_backend_difficulty_agree_witness :
    handleTryAgainNextDifficulty Difficulty.easy ((90 : Int) : ℚ) =
      adjustedDifficulty Difficulty.easy (some 90) 2 :=
  frontend_backend_difficulty_agree Difficulty.easy 90 2 (by omega)

/-- C5 (amended): an invalid generation request is rejected with a 400
validation error, but the details list exactly the first violated field
in schema declaration order — Joi runs with its default `abortEarly`, so
later violations are not listed. -/
theorem validation_reports_first_violation (b : RawBody)
    (cf : String → Option (List Question))
    (gen : Except Unit (Option (List RawQuestion))) (v : String)
    (rest : List String) (h : fieldViolations b = v :: rest) :
    generateQuestionsRoute b cf gen =
      { status := 400, errorDetails := [v] } := by
  simp only [generateQuestionsRoute, validate, h]

/-- Witness for `validation_reports_first_violation`: a body with no
content at all is answered 400 with details `["content"]`. -/
theorem validation_reports_first_violation_witness :
    generateQuestionsRoute {} (fun _ => none) (Except.error ()) =
      { status := 400, errorDetails := ["content"] } :=
  validation_reports_first_violation {} (fun _ => none) (Except.error ())
    "content" [] rfl

/-- Counterexample to C5 as stated: a request with both a too-short
content and `questionCount` 0 violates two fields, but the response
details list only the first; `"questionCount"` is missing. -/
theorem validation_missing_second_violation :
    fieldViolations { content := some "short", questionCount := some 0 } =
        ["content", "questionCount"] ∧
      generateQuestionsRoute { content := some "short", questionCount := some 0 }
          (fun _ => none) (Except.error ()) =
        { status := 400, errorDetails := ["content"] } := by
  exact ⟨rfl, rfl⟩

/-- On any of the three generator-failure shapes, the route answers with
the catch block's response: HTTP 200, `success:false`, `fallback:true`
and `getFallbackQuestions(req.body.questionCount || 3)`. -/
lemma route_genFailure (b : RawBody)
    (cf : String → Option (List Question))
    (gen : Except Unit (Option (List RawQuestion))) (v : ValidatedRequest)
    (hv : validate b = Except.ok v)
    (hmiss : cf (cacheKey v.content
      (adjustedDifficulty v.difficulty v.previousScore v.attemptNumber)
      v.questionCount v.attemptNumber v.userId) = none)
    (hfail : gen = Except.error () ∨ gen = Except.ok none ∨
      ∃ raws, gen = Except.ok (some raws) ∧
        normalizeQuestions raws v.questionCount = []) :
    generateQuestionsRoute b cf gen =
      { status := 200, success := some false, fallback := some true
        questions := getFallbackQuestions (jsOrInt b.questionCount 3).toNat } := by
  rcases hfail with rfl | rfl | ⟨raws, rfl, hempty⟩
  · simp only [generateQuestionsRoute, hv, hmiss]
  · simp only [generateQuestionsRoute, hv, hmiss]
  · simp only [generateQuestionsRoute, hv, hmiss, hempty, List.isEmpty_nil,
      if_true]

/-- C4 (amended): on generator failure with a validated request of count
`n`, the fallback response carries `min n 3` questions — the hard-coded
fallback list has only three entries, so counts above three are capped. -/
theorem fallback_question_count (b : RawBody)
    (cf : String → Option (List Question))
    (gen : Except Unit (Option (List RawQuestion))) (n : Int)
    (hqc : b.questionCount = some n) (h1 : 1 ≤ n) (_h10 : n ≤ 10)
    (v : ValidatedRequest) (hv : validate b = Except.ok v)
    (hmiss : cf (cacheKey v.content
      (adjustedDifficulty v.difficulty v.previousScore v.attemptNumber)
      v.questionCount v.attemptNumber v.userId) = none)
    (hfail : gen = Except.error () ∨ gen = Except.ok none ∨
      ∃ raws, gen = Except.ok (some raws) ∧
        normalizeQuestions raws v.questionCount = []) :
    (generateQuestionsRoute b cf gen).questions.length = min n.toNat 3 := by
  rw [route_genFailure b cf gen v hv hmiss hfail]
  simp only [hqc, jsOrInt, getFallbackQuestions]
  rw [if_neg (by omega)]
  simp [fallbackList, List.length_take]

/-- Witness for `fallback_question_count` at a request for five
questions: the fallback response has `min 5 3 = 3` questions. -/
theorem fallback_question_count_witness :
    (generateQuestionsRoute
        { content := some (String.mk (List.replicate 100 'a'))
          questionCount := some 5 }
        (fun _ => none) (Except.error ())).questions.length =
      min (Int.toNat 5) 3 :=
  fallback_question_count
    { content := some (String.mk (List.replicate 100 'a'))
      questionCount := some 5 }
    (fun _ => none) (Except.error ()) 5 rfl (by omega) (by omega)
    { content := String.mk (List.replicate 100 'a'), questionCount := 5
      difficulty := Difficulty.medium, language := "id"
      questionType := "multiple-choice", attemptNumber := 0
      previousScore := none, userId := none }
    rfl rfl (Or.inl rfl)

/-- Counterexample to C4 as stated: the requested (and validated) count
is 5, the generator fails, and the fallback response contains 3
questions, not 5. -/
theorem fallback_question_count_not_requested :
    (validate { content := some (String.mk (List.replicate 100 'a')),
                questionCount := some 5 }).map (fun v => v.questionCount) =
        Except.ok 5 ∧
      (generateQuestionsRoute
          { content := some (String.mk (List.replicate 100 'a')),
            questionCount := some 5 }
          (fun _ => none) (Except.error ())).questions.length = 3 := by
  exact ⟨rfl, by decide⟩

/-- C1 (amended): on any generator failure — thrown network error,
unparseable or empty output, or output normalizing to an empty list — the
route does not propagate the error: it answers HTTP 200 (success at the
transport level) with `fallback:true` and the sliced fallback question
set, while the body's `success` flag is `false`. -/
theorem generator_failure_returns_fallback (b : RawBody)
    (cf : String → Option (List Question))
    (gen : Except Unit (Option (List RawQuestion))) (v : ValidatedRequest)
    (hv : validate b = Except.ok v)
    (hmiss : cf (cacheKey v.content
      (adjustedDifficulty v.difficulty v.previousScore v.attemptNumber)
      v.questionCount v.attemptNumber v.userId) = none)
    (hfail : gen = Except.error () ∨ gen = Except.ok none ∨
      ∃ raws, gen = Except.ok (some raws) ∧
        normalizeQuestions raws v.questionCount = []) :
    generateQuestionsRoute b cf gen =
      { status := 200, success := some false, fallback := some true
        questions := getFallbackQuestions (jsOrInt b.questionCount 3).toNat } :=
  route_genFailure b cf gen v hv hmiss hfail

/-- Witness for `generator_failure_returns_fallback`: a valid request
whose generator throws gets the degraded 200 response. -/
theorem generator_failure_returns_fallback_witness :
    generateQuestionsRoute { content := some (String.mk (List.replicate 100 'a')) }
        (fun _ => none) (Except.error ()) =
      { status := 200, success := some false, fallback := some true
        questions := getFallbackQuestions (jsOrInt none 3).toNat } :=
  generator_failure_returns_fallback
    { content := some (String.mk (List.replicate 100 'a')) }
    (fun _ => none) (Except.error ())
    { content := String.mk (List.replicate 100 'a'), questionCount := 3
      difficulty := Difficulty.medium, language := "id"
      questionType := "multiple-choice", attemptNumber := 0
      previousScore := none, userId := none }
    rfl rfl (Or.inl rfl)

/-- Counterexample to C1 as stated: on generator failure the response
body's `success` flag is `false`, not `true` — only the HTTP status
(200) signals success. -/
theorem generator_failure_body_success_false :
    (generateQuestionsRoute
        { content := some (String.mk (List.replicate 100 'b')) }
        (fun _ => none) (Except.error ())).status = 200 ∧
      (generateQuestionsRoute
          { content := some (String.mk (List.replicate 100 'b')) }
          (fun _ => none) (Except.error ())).fallback = some true ∧
      (generateQuestionsRoute
          { content := some (String.mk (List.replicate 100 'b')) }
          (fun _ => none) (Except.error ())).success = some false := by
  exact ⟨by decide, by decide, by decide⟩

lemma padOptions_length (l : List QOption) (h : l.length ≤ 4) :
    (padOptions l).length = 4 := by
  simp only [padOptions, List.length_append, List.length_map,
    List.length_drop, List.length_range]
  omega

lemma normalizeQuestion_options_length (i : Nat) (q : RawQuestion) :
    (normalizeQuestion i q).options.length = 4 := by
  apply padOptions_length
  rw [List.length_mapIdx, List.length_take]
  omega

/-- C6 (amended): every normalized question has exactly four options, and
its `correctAnswer` is the raw question's correct-answer field passed
through JS `||`: a missing or empty field becomes the placeholder `"A"`,
but a supplied value is kept unchecked, so it need not match any of the
four option identifiers.  Normalization is a total function: it never
fails, it only substitutes placeholders. -/
theorem normalizeQuestions_shape (qs : List RawQuestion) (n i : Nat)
    (h : i < (normalizeQuestions qs n).length) :
    ((normalizeQuestions qs n).get ⟨i, h⟩).options.length = 4 ∧
    ((normalizeQuestions qs n).get ⟨i, h⟩).correctAnswer =
      jsOrStr ((qs.take n).getD i {}).correctAnswer "A" := by
  have hi : i < (qs.take n).length := by
    have := h
    rw [normalizeQuestions, List.length_mapIdx] at this
    exact this
  have hget : (normalizeQuestions qs n).get ⟨i, h⟩ =
      normalizeQuestion i ((qs.take n).get ⟨i, hi⟩) :=
    List.get_mapIdx (qs.take n) normalizeQuestion i hi
  constructor
  · rw [hget]
    exact normalizeQuestion_options_length i _
  · rw [hget]
    have hgd : (qs.take n).getD i {} = (qs.take n).get ⟨i, hi⟩ := by
      rw [List.get_eq_getElem, List.getD_eq_getElem?_getD,
        List.getElem?_eq_getElem hi]
      rfl
    rw [hgd]
    rfl

/-- Witness for `normalizeQuestions_shape` on a raw question carrying two
bare-string options and no correct-answer field. -/
theorem normalizeQuestions_shape_witness :
    ((normalizeQuestions
        [{ question := some "Q", options := some [RawOption.str "x", RawOption.str "y"] }]
        3).get ⟨0, by decide⟩).options.length = 4 ∧
    ((normalizeQuestions
        [{ question := some "Q", options := some [RawOption.str "x", RawOption.str "y"] }]
        3).get ⟨0, by decide⟩).correctAnswer =
      jsOrStr (([({ question := some "Q",
                    options := some [RawOption.str "x", RawOption.str "y"] } :
          RawQuestion)].take 3).getD 0 {}).correctAnswer "A" :=
  normalizeQuestions_shape
    [{ question := some "Q", options := some [RawOption.str "x", RawOption.str "y"] }]
    3 0 (by decide)

/-- Counterexample to C6 as stated: a raw question whose correct-answer
field is `"E"` normalizes to four options with ids `A`-`D` but keeps
`correctAnswer = "E"`, which matches none of the option identifiers. -/
theorem normalize_correctAnswer_unchecked :
    (normalizeQuestions [{ correctAnswer := some "E" }] 3) ≠ [] ∧
      (normalizeQuestions [{ correctAnswer := some "E" }] 3).all
        (fun q => q.options.any (fun o => o.id = q.correctAnswer)) = false := by
  exact ⟨by decide, by decide⟩

/-- C9: the frontend API client serializes only content, difficulty,
question count and language; attempt number, previous score and user id
never reach the wire, so a body built by the client always validates to
`attemptNumber = 0`, `previousScore` absent and `userId` absent — hence
the `anonymous` cache-key sentinel — and the backend's adaptive-difficulty
adjustment is the identity on such requests. -/
theorem apiClient_omits_adaptive_fields (request : GenerateQuestionsRequest) :
    (apiGenerateQuestionsBody request).attemptNumber = none ∧
    (apiGenerateQuestionsBody request).previousScore = none ∧
    (apiGenerateQuestionsBody request).userId = none ∧
    ∀ v, validate (apiGenerateQuestionsBody request) = Except.ok v →
      v.attemptNumber = 0 ∧ v.previousScore = none ∧ v.userId = none ∧
      adjustedDifficulty v.difficulty v.previousScore v.attemptNumber =
        v.difficulty ∧
      userSegment v.userId = "anonymous" := by
  refine ⟨rfl, rfl, rfl, ?_⟩
  intro v hv
  rcases hfv : fieldViolations (apiGenerateQuestionsBody request) with _ | ⟨w, rest⟩
  · simp only [validate, hfv, Except.ok.injEq] at hv
    subst hv
    exact ⟨rfl, rfl, rfl, adjustedDifficulty_none _ _, rfl⟩
  · simp [validate, hfv] at hv

/-- Witness for `apiClient_omits_adaptive_fields`: a retry-style request
carrying attempt number 2, previous score 85 and a user id is serialized
without them and validates to the anonymous defaults. -/
theorem apiClient_omits_adaptive_fields_witness :
    (apiGenerateQuestionsBody
        { content := String.mk (List.replicate 100 'a'),
          difficulty := some "easy", questionCount := some 3,
          language := some "id", tutorialTitle := some "React Hooks",
          attemptNumber := some 2, previousScore := some 85,
          userId := some "user-1" }).attemptNumber = none ∧
    ({ content := String.mk (List.replicate 100 'a'), questionCount := 3,
        difficulty := Difficulty.easy, language := "id",
        questionType := "multiple-choice", attemptNumber := 0,
        previousScore := none, userId := none } : ValidatedRequest).attemptNumber
        = 0 ∧
    adjustedDifficulty Difficulty.easy none 0 = Difficulty.easy := by
  have h := apiClient_omits_adaptive_fields
    { content := String.mk (List.replicate 100 'a'),
      difficulty := some "easy", questionCount := some 3,
      language := some "id", tutorialTitle := some "React Hooks",
      attemptNumber := some 2, previousScore := some 85,
      userId := some "user-1" }
  have h2 := h.2.2.2
    { content := String.mk (List.replicate 100 'a'), questionCount := 3,
      difficulty := Difficulty.easy, language := "id",
      questionType := "multiple-choice", attemptNumber := 0,
      previousScore := none, userId := none } rfl
  exact ⟨h.1, h2.1, h2.2.2.2.1⟩

/-- C10: every cache operation is total at its interface: `get` returns
the parsed value or `null`, and `set`/`del` return `false`, whenever the
Redis client is unavailable or the underlying call throws; no branch
propagates an exception, so a cache outage degrades to universal misses. -/
theorem cache_ops_degrade (α : Type) (available : Bool)
    (cg : Except Unit (Option String)) (pf : String → Except Unit α)
    (cs cd : Except Unit Unit) :
    (available = false →
      cacheGet available cg pf = none ∧ cacheSet available cs = false ∧
        cacheDel available cd = false) ∧
    (cg = Except.error () → cacheGet available cg pf = none) ∧
    (cs = Except.error () → cacheSet available cs = false) ∧
    (cd = Except.error () → cacheDel available cd = false) ∧
    (∀ s, cg = Except.ok (some s) → pf s = Except.error () →
      cacheGet available cg pf = none) ∧
    (cacheGet available cg pf = none ∨
      ∃ s x, cg = Except.ok (some s) ∧ pf s = Except.ok x ∧
        cacheGet available cg pf = some x) := by
  refine ⟨?_, ?_, ?_, ?_, ?_, ?_⟩
  · rintro rfl
    exact ⟨rfl, rfl, rfl⟩
  · rintro rfl
    cases available <;> simp [cacheGet]
  · rintro rfl
    cases available <;> simp [cacheSet]
  · rintro rfl
    cases available <;> simp [cacheDel]
  · rintro s rfl hpf
    cases available <;> by_cases hs : s = "" <;> simp [cacheGet, hpf, hs]
  · cases available
    · exact Or.inl rfl
    · rcases cg with e | os
      · exact Or.inl (by simp [cacheGet])
      · rcases os with _ | s
        · exact Or.inl (by simp [cacheGet])
        · by_cases hs : s = ""
          · exact Or.inl (by simp [cacheGet, hs])
          · rcases hpf : pf s with e | x
            · exact Or.inl (by simp [cacheGet, hs, hpf])
            · exact Or.inr ⟨s, x, rfl, hpf, by simp [cacheGet, hs, hpf]⟩

/-- Witness for `cache_ops_degrade`: with the client unavailable, `get`
returns `null` and `set`/`del` return `false`. -/
theorem cache_ops_degrade_witness :
    cacheGet false (Except.error ()) (fun _ => (Except.error () : Except Unit Nat))
        = none ∧
      cacheSet false (Except.error ()) = false ∧
      cacheDel false (Except.error ()) = false :=
  (cache_ops_degrade Nat false (Except.error ())
    (fun _ => Except.error ()) (Except.error ()) (Except.error ())).1 rfl

end LearnCheck
